import Mathlib

/-!
Verification of the mercury RabbitMQ message-bus facade.

Shallow embedding of `RabbitMQConnectionFacade` (topology provisioning,
inbound dispatch, outcome resolution, outbound publishing, subscriptions,
disconnect) and of `RabbitMQMessageBus.configure`'s subscription step.
Broker channel calls are modelled as traces of explicit operations;
JavaScript truthiness of option-like values is modelled explicitly.
-/

namespace Mercury

/-- JS truthiness for an optional string: `undefined`/`null` and the empty
string are falsy, every other string is truthy. -/
def truthyStr : Option String → Bool
  | none => false
  | some s => s ≠ ""

/-- One entry of the broker-supplied `x-death` header array: only the
`count` field is read by the facade. -/
structure XDeathEntry where
  count : Nat
deriving DecidableEq, Repr

/-- The delivery properties the facade reads: `properties.appId`,
`properties.messageId`, `properties.timestamp`, and the headers
`x-death` and `parentMessage`. -/
structure DeliveryProperties where
  appId : Option String
  messageId : Option String
  timestamp : Nat
  xDeath : Option (List XDeathEntry)
  parentMessage : Option String
deriving DecidableEq, Repr

/-- A raw broker delivery (`ConsumeMessage`): routing key, body content,
and properties. The body is kept as a string of bytes. -/
structure ConsumeMessage where
  routingKey : String
  content : String
  properties : DeliveryProperties
deriving DecidableEq, Repr

/-- Modelled from the spec: the application message
(`JSONMessage`, whose class source is not under `src/`) stores the
descriptor, serialized body, identifier, timestamp and parent identifier
given to its constructor, and its accessors `getDescriptor`,
`getSerializedContent`, `getUUID`, `getParentMessage` return them. -/
structure Message where
  descriptor : String
  content : String
  uuid : String
  timestamp : Nat
  parentMessage : Option String
deriving DecidableEq, Repr

/-- The options object passed to `channel.publish`. -/
structure PublishOptions where
  parentMessage : Option String
  persistent : Bool
  messageId : String
  timestamp : Nat
  appId : String
deriving DecidableEq, Repr

/-- Operations issued on the broker channel during provisioning and
subscription, recorded as a trace. -/
inductive BrokerOp where
  | assertExchange (name kind : String) (durable autoDelete : Bool)
  | assertQueue (name : String) (durable autoDelete : Bool)
      (deadLetterExchange : Option String) (messageTtlMs : Option Nat)
  | bindExchange (destination source routingKey : String)
  | bindQueue (queue exchange routingKey : String)
deriving DecidableEq, Repr

/-- Acknowledgment and publish operations issued on the channel by the
outcome resolver and the dispatcher. -/
inductive ChannelAction where
  | ack (message : ConsumeMessage)
  | nack (message : ConsumeMessage) (allUpTo requeue : Bool)
  | publish (exchange routingKey content : String) (options : PublishOptions)
deriving DecidableEq, Repr

/-- The in-flight table `messagePool : Map<string, ConsumeMessage>`,
modelled as an association list with JS `Map` get/set/delete semantics. -/
abbrev MessagePool : Type := List (String × ConsumeMessage)

/-- Map get: the value stored at the key, if any. -/
def MessagePool.get (p : MessagePool) (k : String) : Option ConsumeMessage :=
  (List.find? (fun e => e.1 == k) p).map (·.2)

/-- Map set: store a value at a key, replacing any previous binding. -/
def MessagePool.set (p : MessagePool) (k : String) (v : ConsumeMessage) :
    MessagePool :=
  (k, v) :: List.filter (fun e => e.1 != k) p

/-- Map delete: remove the binding at a key, if present. -/
def MessagePool.delete (p : MessagePool) (k : String) : MessagePool :=
  List.filter (fun e => e.1 != k) p

/-- The facade's constructor arguments (`serviceName`, `appName`,
`delayRetry`); all other identity fields are derived from them. -/
structure Facade where
  serviceName : String
  appName : String
  delayRetry : Nat
deriving DecidableEq, Repr

/-- The fixed shared broadcast exchange constant `main_bus`. -/
def main_bus : String := "mercury_bus"

/-- Field `this.exchange = serviceName`. -/
def Facade.exchange (f : Facade) : String := f.serviceName

/-- Field `this.deadLetterExchange`: the exchange name suffixed `_dlx`. -/
def Facade.deadLetterExchange (f : Facade) : String :=
  f.exchange ++ "_dlx"

/-- Field `this.queue`: the service name suffixed `_queue`. -/
def Facade.queue (f : Facade) : String := f.serviceName ++ "_queue"

/-- Field `this.retryQueue`: the queue name suffixed `_retry`. -/
def Facade.retryQueue (f : Facade) : String := f.queue ++ "_retry"

/-- The effective retry limit: `maxRetries = maxRetries ? maxRetries : 60`
(`0` and absence are falsy). -/
def retryLimit (maxRetries : Option Nat) : Nat :=
  match maxRetries with
  | some n => if n ≠ 0 then n else 60
  | none => 60

/-- The pre-existing death count the spec speaks about: `x-death[0].count`,
`0` when the header is absent. -/
def deathCount : Option (List XDeathEntry) → Nat
  | none => 0
  | some [] => 0
  | some (e :: _) => e.count

/-- The `MESSAGE_PROCESS_ERROR` handler. Returns `none` when the handler
throws: looking up a `messageId` that is not in the pool leaves `message`
undefined and `message.properties` raises a `TypeError`; an empty `x-death`
array (truthy in JS) makes `x-death[0].count` raise likewise. Otherwise
returns the updated pool and the acknowledgment action taken. -/
def onMessageProcessError (pool : MessagePool) (messageId : String)
    (maxRetries : Option Nat) : Option (MessagePool × ChannelAction) :=
  match pool.get messageId with
  | none => none
  | some message =>
    let pool' := pool.delete messageId
    let limit := retryLimit maxRetries
    match message.properties.xDeath with
    | none => some (pool', ChannelAction.nack message false false)
    | some [] => none
    | some (e :: _) =>
      if e.count < limit then
        some (pool', ChannelAction.nack message false false)
      else
        some (pool', ChannelAction.ack message)

/-- Build the `channel.publish` call issued by `publish(message,
alternativeExchange)` at instant `now`: route to the alternative exchange
when truthy, else to `main_bus`; stamp persistence, the message identifier,
a fresh timestamp and the application identity. -/
def Facade.publishAction (f : Facade) (now : Nat) (m : Message)
    (alternativeExchange : Option String) : ChannelAction :=
  let exchange :=
    if truthyStr alternativeExchange then alternativeExchange.getD ""
    else main_bus
  ChannelAction.publish exchange m.descriptor m.content
    { parentMessage := m.parentMessage
      persistent := true
      messageId := m.uuid
      timestamp := now
      appId := f.appName }

/-- The `MESSAGE_PROCESS_SUCCESS` handler. Returns `none` when the handler
throws: an unknown `messageId` makes `messagePool.get` return undefined and
`channel.ack(undefined)` raises. Otherwise returns the updated pool and the
channel actions in issue order (the ack, then one publish per resulting
message). -/
def onMessageProcessSuccess (f : Facade) (now : Nat) (pool : MessagePool)
    (messageId : String) (resultingMessages : Option (List Message)) :
    Option (MessagePool × List ChannelAction) :=
  match pool.get messageId with
  | none => none
  | some message =>
    let publishes :=
      match resultingMessages with
      | none => []
      | some msgs => msgs.map (fun m => f.publishAction now m none)
    some (pool.delete messageId, ChannelAction.ack message :: publishes)

/-- Result of the consume callback for one delivery: either an immediate
acknowledgment, or a dispatch of the constructed application message under
its descriptor (no acknowledgment). -/
inductive ConsumeResult where
  | acked
  | dispatched (descriptor : String) (message : Message)
deriving DecidableEq, Repr

/-- The application message the consume callback constructs:
`new JSONMessage(routingKey, content, messageId, timestamp,
headers.parentMessage)`. -/
def messageOfDelivery (msg : ConsumeMessage) : Message :=
  { descriptor := msg.routingKey
    content := msg.content
    uuid := msg.properties.messageId.getD ""
    timestamp := msg.properties.timestamp
    parentMessage := msg.properties.parentMessage }

/-- The consume callback registered on the primary queue: acknowledge
deliveries with a foreign `appId` or without a truthy `messageId`;
otherwise record the delivery in the pool keyed by its `messageId` and
dispatch the constructed application message under its routing key. -/
def consumeCallback (f : Facade) (pool : MessagePool) (msg : ConsumeMessage) :
    MessagePool × ConsumeResult :=
  if msg.properties.appId = some f.appName then
    if truthyStr msg.properties.messageId then
      (pool.set (msg.properties.messageId.getD "") msg,
       ConsumeResult.dispatched msg.routingKey (messageOfDelivery msg))
    else
      (pool, ConsumeResult.acked)
  else
    (pool, ConsumeResult.acked)

/-- The trace of channel operations issued by `setUp`, in program order. -/
def Facade.setUp (f : Facade) : List BrokerOp :=
  [ BrokerOp.assertExchange main_bus "fanout" true false,
    BrokerOp.assertExchange f.exchange "direct" true false,
    BrokerOp.assertExchange f.deadLetterExchange "fanout" true false,
    BrokerOp.assertQueue f.queue true false (some f.deadLetterExchange) none,
    BrokerOp.assertQueue f.retryQueue true false (some f.exchange)
      (some (f.delayRetry * 1000)),
    BrokerOp.bindExchange f.exchange main_bus "",
    BrokerOp.bindQueue f.retryQueue f.deadLetterExchange "" ]

/-- Method `subscribe(descriptor)`: bind the primary queue to the service
exchange under the routing key `descriptor`. -/
def Facade.subscribe (f : Facade) (descriptor : String) : BrokerOp :=
  BrokerOp.bindQueue f.queue f.exchange descriptor

/-- A JS value passed where `subscribeAll` expects a string array: an
actual array, `null`, `undefined`, or a `Map` (as `configure` passes). -/
inductive JSValue where
  | array (elems : List String)
  | nullValue
  | undefinedValue
  | mapValue (entries : List (String × String))
deriving DecidableEq, Repr

/-- The `Array.isArray` test. -/
def JSValue.isArray : JSValue → Bool
  | JSValue.array _ => true
  | _ => false

/-- Method `subscribeAll(descriptors)`: when the input is an array, one
`subscribe` per element in list order; otherwise no operation. Returns the
trace of bind operations issued. -/
def Facade.subscribeAll (f : Facade) (descriptors : JSValue) :
    List BrokerOp :=
  match descriptors with
  | JSValue.array l => l.map f.subscribe
  | _ => []

/-- The subscription step of `RabbitMQMessageBus.configure`: it passes the
metadata-derived `Map<string, string>` of message bindings to
`subscribeAll`. Returns the trace of bind operations issued. -/
def configureSubscribeOps (f : Facade) (messageBindings : List (String × String)) :
    List BrokerOp :=
  f.subscribeAll (JSValue.mapValue messageBindings)

/-- Teardown operations issued by `disconnect`, in order. -/
inductive CloseOp where
  | closeChannel
  | closeConnection
deriving DecidableEq, Repr

/-- Outcomes of awaiting a broker `close()` call, supplied by the
transport capability. -/
structure CloseResults where
  channelClose : Except String Unit
  connectionClose : Except String Unit

/-- Method `disconnect()`: when `this.connection` is unset (already torn down) do
nothing and succeed; otherwise await `channel.close()` then
`connection.close()` in that order, propagating the first error, and clear
`this.connection`. Returns the new connection-set flag and the trace of
close operations awaited. -/
def disconnect (connectionSet : Bool) (res : CloseResults) :
    Except String (Bool × List CloseOp) :=
  if connectionSet then
    match res.channelClose with
    | Except.error e => Except.error e
    | Except.ok _ =>
      match res.connectionClose with
      | Except.error e => Except.error e
      | Except.ok _ =>
        Except.ok (false, [CloseOp.closeChannel, CloseOp.closeConnection])
  else
    Except.ok (connectionSet, [])

/-- Ordering predicate on traces: every operation satisfying `p` occurs
strictly before every operation satisfying `q` (equivalently, assuming `p`
and `q` are disjoint: no `p`-operation occurs after any `q`-operation). -/
def allBefore (p q : BrokerOp → Bool) : List BrokerOp → Bool
  | [] => true
  | op :: rest => (!(q op) || rest.all (fun o => !(p o))) && allBefore p q rest

/-- Whether a broker operation is an exchange declaration. -/
def isExchangeDecl : BrokerOp → Bool
  | BrokerOp.assertExchange _ _ _ _ => true
  | _ => false

/-- Whether a broker operation is a queue declaration. -/
def isQueueDecl : BrokerOp → Bool
  | BrokerOp.assertQueue _ _ _ _ _ => true
  | _ => false

/-- Whether a broker operation is a binding (queue or exchange). -/
def isBinding : BrokerOp → Bool
  | BrokerOp.bindExchange _ _ _ => true
  | BrokerOp.bindQueue _ _ _ => true
  | _ => false

/-- Whether a broker operation declares the facade's retry queue. -/
def isRetryQueueDecl (f : Facade) : BrokerOp → Bool
  | BrokerOp.assertQueue name _ _ _ _ => name == f.retryQueue
  | _ => false

/-- Whether a broker operation declares the facade's service exchange. -/
def isServiceExchangeDecl (f : Facade) : BrokerOp → Bool
  | BrokerOp.assertExchange name _ _ _ => name == f.exchange
  | _ => false

/-- The delivery the broker hands back for a published message: routing
key, body and publish options carried verbatim (the transport capability's
faithful-delivery contract), with no dead-letter history yet. -/
def deliveredFromPublish (routingKey content : String)
    (opts : PublishOptions) : ConsumeMessage :=
  { routingKey := routingKey
    content := content
    properties :=
      { appId := some opts.appId
        messageId := some opts.messageId
        timestamp := opts.timestamp
        xDeath := none
        parentMessage := opts.parentMessage } }

/-- Publish a message, let the broker deliver it back, and run the consume
callback on the resulting delivery. -/
def roundTrip (f : Facade) (now : Nat) (pool : MessagePool) (m : Message)
    (alternativeExchange : Option String) : MessagePool × ConsumeResult :=
  match f.publishAction now m alternativeExchange with
  | ChannelAction.publish _ rk content opts =>
      consumeCallback f pool (deliveredFromPublish rk content opts)
  | _ => (pool, ConsumeResult.acked)

/-- A concrete facade used by witnesses and counterexamples. -/
def facadeA : Facade :=
  { serviceName := "svc", appName := "app", delayRetry := 5 }

/-- A concrete tracked delivery with sixty prior deaths. -/
def delivery60 : ConsumeMessage :=
  { routingKey := "topic.a"
    content := "body"
    properties :=
      { appId := some "app"
        messageId := some "id1"
        timestamp := 7
        xDeath := some [{ count := 60 }]
        parentMessage := none } }

/-- A concrete in-flight pool holding `delivery60` under key `id1`. -/
def pool60 : MessagePool := [("id1", delivery60)]

/-- A concrete delivery carrying a foreign application tag. -/
def deliveryForeign : ConsumeMessage :=
  { routingKey := "topic.b"
    content := "body"
    properties :=
      { appId := some "other"
        messageId := some "id2"
        timestamp := 1
        xDeath := none
        parentMessage := none } }

/-- A concrete delivery owned by `facadeA` and carrying an identifier. -/
def deliveryTracked : ConsumeMessage :=
  { routingKey := "topic.c"
    content := "body"
    properties :=
      { appId := some "app"
        messageId := some "id3"
        timestamp := 2
        xDeath := none
        parentMessage := some "parent1" } }

/-- A concrete handler-produced message used for publish witnesses. -/
def resultA : Message :=
  { descriptor := "topic.d"
    content := "payload1"
    uuid := "uuidA"
    timestamp := 0
    parentMessage := some "parentA" }

/-- A second concrete handler-produced message. -/
def resultB : Message :=
  { descriptor := "topic.e"
    content := "payload2"
    uuid := "uuidB"
    timestamp := 0
    parentMessage := none }

/-- Close results where both teardown calls succeed. -/
def resOk : CloseResults :=
  { channelClose := Except.ok (), connectionClose := Except.ok () }

/-- Close results where the channel teardown fails. -/
def resBad : CloseResults :=
  { channelClose := Except.error "boom", connectionClose := Except.ok () }

/-- The retry limit is always positive (zero is falsy, so it falls back to
the default of sixty). -/
theorem retryLimit_pos (mr : Option Nat) : 0 < retryLimit mr := by
  cases mr with
  | none => simp [retryLimit]
  | some n =>
      by_cases h : n = 0 <;> simp [retryLimit, h]
      omega

/-- Map law: getting a key just set returns the stored value. -/
theorem MessagePool.get_set_self (p : MessagePool) (k : String)
    (v : ConsumeMessage) : MessagePool.get (MessagePool.set p k v) k = some v := by
  simp [MessagePool.get, MessagePool.set, List.find?]

/-- Map law: getting a key just deleted returns nothing. -/
theorem MessagePool.get_delete_self (p : MessagePool) (k : String) :
    MessagePool.get (MessagePool.delete p k) k = none := by
  unfold MessagePool.get MessagePool.delete
  rw [List.find?_eq_none.mpr]
  · rfl
  · intro x hx
    have hmem := List.mem_filter.mp hx
    simpa using hmem.2

/-- C1: on an error outcome for a tracked delivery, the resolver removes
the delivery from the pool and negative-acknowledges without requeue
exactly when the pre-existing death count (zero absent history) is
strictly below the limit, positively acknowledging otherwise; the limit is
`maxRetries` when provided and truthy and sixty otherwise, so counts zero
through fifty-nine retry and count sixty terminates. -/
theorem error_outcome_retry_decision (pool : MessagePool) (messageId : String)
    (m : ConsumeMessage) (maxRetries : Option Nat)
    (htracked : MessagePool.get pool messageId = some m)
    (hwf : m.properties.xDeath ≠ some []) :
    onMessageProcessError pool messageId maxRetries =
      some (MessagePool.delete pool messageId,
        if deathCount m.properties.xDeath < retryLimit maxRetries then
          ChannelAction.nack m false false
        else ChannelAction.ack m) ∧
    retryLimit none = 60 ∧
    (∀ n : Nat, n ≠ 0 → retryLimit (some n) = n) := by
  refine ⟨?_, rfl, fun n hn => by simp [retryLimit, hn]⟩
  cases hx : m.properties.xDeath with
  | none =>
      simp only [onMessageProcessError, htracked, hx, deathCount]
      rw [if_pos (retryLimit_pos maxRetries)]
  | some l =>
      cases l with
      | nil => exact absurd hx hwf
      | cons e rest =>
          simp only [onMessageProcessError, htracked, hx, deathCount]
          by_cases hc : e.count < retryLimit maxRetries
          · rw [if_pos hc, if_pos hc]
          · rw [if_neg hc, if_neg hc]

/-- Witness for C1 at the terminal boundary: a tracked delivery with sixty
prior deaths and no `maxRetries` is positively acknowledged. -/
theorem error_outcome_retry_decision_witness :
    (MessagePool.get pool60 "id1" = some delivery60 ∧
      delivery60.properties.xDeath ≠ some []) ∧
    onMessageProcessError pool60 "id1" none =
      some (MessagePool.delete pool60 "id1",
        if deathCount delivery60.properties.xDeath < retryLimit none then
          ChannelAction.nack delivery60 false false
        else ChannelAction.ack delivery60) :=
  ⟨⟨by decide, by decide⟩,
   (error_outcome_retry_decision pool60 "id1" delivery60 none
      (by decide) (by decide)).1⟩

/-- C2: contrary to the claim that an outcome signal for an identifier not
in the in-flight table is a silent no-op, both handlers fail on an unknown
identifier: the error handler dereferences the undefined pool entry
(`message.properties`) and the success handler passes the undefined entry
to `channel.ack`; the embedding returns `none` (a throw) in both cases. -/
theorem unknown_delivery_outcome_throws :
    onMessageProcessError [] "missing" none = none ∧
    onMessageProcessSuccess facadeA 0 [] "missing" none = none :=
  ⟨rfl, rfl⟩

/-- C3: a delivery with a foreign application tag or without a truthy
tracking identifier is acknowledged at once and the in-flight table is
unchanged; a delivery matching the application identity and carrying an
identifier is stored in the table under that identifier (and found there
afterwards) and dispatched under its routing key without acknowledgment. -/
theorem consume_filter_and_tracking (f : Facade) (pool : MessagePool)
    (msg : ConsumeMessage) :
    (msg.properties.appId ≠ some f.appName ∨
        truthyStr msg.properties.messageId = false →
      consumeCallback f pool msg = (pool, ConsumeResult.acked)) ∧
    (∀ mid : String, msg.properties.appId = some f.appName →
      msg.properties.messageId = some mid → mid ≠ "" →
      consumeCallback f pool msg =
        (MessagePool.set pool mid msg,
         ConsumeResult.dispatched msg.routingKey (messageOfDelivery msg)) ∧
      MessagePool.get (MessagePool.set pool mid msg) mid = some msg) := by
  constructor
  · intro h
    unfold consumeCallback
    cases h with
    | inl h => rw [if_neg h]
    | inr h =>
        by_cases happ : msg.properties.appId = some f.appName
        · rw [if_pos happ, if_neg]
          simp [h]
        · rw [if_neg happ]
  · intro mid happ hmid hne
    have htruthy : truthyStr msg.properties.messageId = true := by
      rw [hmid]; simpa [truthyStr] using hne
    refine ⟨?_, MessagePool.get_set_self pool mid msg⟩
    unfold consumeCallback
    rw [if_pos happ, if_pos (by simpa using htruthy), hmid]
    rfl

/-- Witness for C3: a foreign-tagged delivery is acknowledged with the
table untouched; an owned, identified delivery is tracked and dispatched. -/
theorem consume_filter_and_tracking_witness :
    consumeCallback facadeA [] deliveryForeign = ([], ConsumeResult.acked) ∧
    (consumeCallback facadeA [] deliveryTracked =
       (MessagePool.set [] "id3" deliveryTracked,
        ConsumeResult.dispatched "topic.c" (messageOfDelivery deliveryTracked)) ∧
     MessagePool.get (MessagePool.set [] "id3" deliveryTracked) "id3" =
       some deliveryTracked) :=
  ⟨(consume_filter_and_tracking facadeA [] deliveryForeign).1
      (Or.inl (by decide)),
   (consume_filter_and_tracking facadeA [] deliveryTracked).2 "id3"
      (by decide) (by decide) (by decide)⟩

/-- C4: on a success outcome for a tracked delivery, the handler deletes
the entry (so the table no longer contains the identifier), issues exactly
one positive acknowledgment followed by exactly one publish per resulting
message, and every such publish goes to the broadcast exchange stamped
with the fresh timestamp and the configured application identity. -/
theorem success_outcome_resolution (f : Facade) (now : Nat)
    (pool : MessagePool) (messageId : String) (m : ConsumeMessage)
    (msgs : List Message)
    (htracked : MessagePool.get pool messageId = some m) :
    onMessageProcessSuccess f now pool messageId (some msgs) =
      some (MessagePool.delete pool messageId,
        ChannelAction.ack m :: msgs.map (fun r => f.publishAction now r none)) ∧
    MessagePool.get (MessagePool.delete pool messageId) messageId = none ∧
    (msgs.map (fun r => f.publishAction now r none)).length = msgs.length ∧
    (∀ r ∈ msgs, f.publishAction now r none =
      ChannelAction.publish main_bus r.descriptor r.content
        { parentMessage := r.parentMessage
          persistent := true
          messageId := r.uuid
          timestamp := now
          appId := f.appName }) := by
  refine ⟨?_, MessagePool.get_delete_self pool messageId,
    List.length_map _ _, fun r _ => rfl⟩
  simp only [onMessageProcessSuccess, htracked]

/-- Witness for C4: a success outcome with two resulting messages yields
the ack and exactly two stamped publishes, and the key is gone. -/
theorem success_outcome_resolution_witness :
    MessagePool.get pool60 "id1" = some delivery60 ∧
    (onMessageProcessSuccess facadeA 42 pool60 "id1"
        (some [resultA, resultB]) =
      some (MessagePool.delete pool60 "id1",
        ChannelAction.ack delivery60 ::
          [resultA, resultB].map (fun r => facadeA.publishAction 42 r none)) ∧
     MessagePool.get (MessagePool.delete pool60 "id1") "id1" = none ∧
     ([resultA, resultB].map
        (fun r => facadeA.publishAction 42 r none)).length = 2 ∧
     (∀ r ∈ [resultA, resultB], facadeA.publishAction 42 r none =
       ChannelAction.publish main_bus r.descriptor r.content
         { parentMessage := r.parentMessage
           persistent := true
           messageId := r.uuid
           timestamp := 42
           appId := facadeA.appName })) :=
  ⟨by decide,
   success_outcome_resolution facadeA 42 pool60 "id1" delivery60
     [resultA, resultB] (by decide)⟩

/-- C5: the topology declares `<serviceName>_queue` dead-lettering to
`<serviceName>_dlx`, `<serviceName>_queue_retry` dead-lettering to the
service exchange with a message time-to-live of `retryDelaySeconds`
seconds (stored in milliseconds), binds the dead-letter exchange to the
retry queue, and binds the service exchange to the fixed fanout broadcast
exchange `mercury_bus`. -/
theorem topology_invariants (f : Facade) :
    f.queue = f.serviceName ++ "_queue" ∧
    f.retryQueue = f.serviceName ++ "_queue_retry" ∧
    f.deadLetterExchange = f.serviceName ++ "_dlx" ∧
    f.exchange = f.serviceName ∧
    main_bus = "mercury_bus" ∧
    BrokerOp.assertQueue f.queue true false (some f.deadLetterExchange) none
      ∈ f.setUp ∧
    BrokerOp.assertQueue f.retryQueue true false (some f.exchange)
      (some (f.delayRetry * 1000)) ∈ f.setUp ∧
    BrokerOp.bindQueue f.retryQueue f.deadLetterExchange "" ∈ f.setUp ∧
    BrokerOp.bindExchange f.exchange main_bus "" ∈ f.setUp ∧
    BrokerOp.assertExchange main_bus "fanout" true false ∈ f.setUp := by
  refine ⟨rfl, ?_, rfl, rfl, rfl, ?_, ?_, ?_, ?_, ?_⟩
  · apply String.ext
    show (f.serviceName.data ++ "_queue".data) ++ "_retry".data =
      f.serviceName.data ++ "_queue_retry".data
    rw [List.append_assoc]
    rfl
  all_goals simp [Facade.setUp]

/-- C6 counterexample: in the concrete provisioning trace the retry-queue
declaration precedes the bindings, so the claimed ordering "bindings
before the dependent retry-queue declaration" is false. -/
theorem provisioning_order_counterexample :
    ¬ (allBefore isBinding (isRetryQueueDecl facadeA) facadeA.setUp = true) := by
  decide

/-- C6 (amended): the provisioning trace declares all exchanges before all
queues and all queues before all bindings, and the service exchange (the
retry queue's dead-letter target) is declared before the retry queue. -/
theorem provisioning_order (f : Facade) :
    allBefore isExchangeDecl isQueueDecl f.setUp = true ∧
    allBefore isQueueDecl isBinding f.setUp = true ∧
    allBefore (isServiceExchangeDecl f) (isRetryQueueDecl f) f.setUp = true := by
  refine ⟨rfl, rfl, ?_⟩
  simp [Facade.setUp, allBefore, isServiceExchangeDecl, isRetryQueueDecl]

/-- C7: a message published with identifier `X` and parent `Y`, delivered
back by the broker and consumed by the same facade, is dispatched as an
application message carrying identifier `X` and parent `Y` unchanged. -/
theorem lineage_round_trip (f : Facade) (now : Nat) (pool : MessagePool)
    (m : Message) (alternativeExchange : Option String)
    (huuid : m.uuid ≠ "") :
    (roundTrip f now pool m alternativeExchange).2 =
      ConsumeResult.dispatched m.descriptor
        { descriptor := m.descriptor
          content := m.content
          uuid := m.uuid
          timestamp := now
          parentMessage := m.parentMessage } := by
  simp [roundTrip, Facade.publishAction, deliveredFromPublish,
    consumeCallback, messageOfDelivery, truthyStr, huuid]

/-- Witness for C7: identifier `uuidA` and parent `parentA` survive the
publish/consume round trip. -/
theorem lineage_round_trip_witness :
    resultA.uuid ≠ "" ∧
    (roundTrip facadeA 9 [] resultA none).2 =
      ConsumeResult.dispatched resultA.descriptor
        { descriptor := resultA.descriptor
          content := resultA.content
          uuid := resultA.uuid
          timestamp := 9
          parentMessage := resultA.parentMessage } :=
  ⟨by decide, lineage_round_trip facadeA 9 [] resultA none (by decide)⟩

/-- C8: on an array input `subscribeAll` issues one queue-to-exchange bind
per topic, in list order; on an empty array, `null`, or any non-array
input it issues no bind and completes without error. -/
theorem subscribeAll_behavior (f : Facade) (topics : List String) :
    f.subscribeAll (JSValue.array topics) =
      topics.map (fun t => BrokerOp.bindQueue f.queue f.exchange t) ∧
    f.subscribeAll (JSValue.array []) = [] ∧
    f.subscribeAll JSValue.nullValue = [] ∧
    (∀ v : JSValue, v.isArray = false → f.subscribeAll v = []) := by
  refine ⟨rfl, rfl, rfl, fun v hv => ?_⟩
  cases v with
  | array l => exact absurd hv (by simp [JSValue.isArray])
  | nullValue => rfl
  | undefinedValue => rfl
  | mapValue entries => rfl

/-- Witness for C8: two topics yield exactly their two binds in order, and
a `null` input binds nothing. -/
theorem subscribeAll_behavior_witness :
    facadeA.subscribeAll (JSValue.array ["t1", "t2"]) =
      [BrokerOp.bindQueue facadeA.queue facadeA.exchange "t1",
       BrokerOp.bindQueue facadeA.queue facadeA.exchange "t2"] ∧
    JSValue.nullValue.isArray = false ∧
    facadeA.subscribeAll JSValue.nullValue = [] :=
  ⟨(subscribeAll_behavior facadeA ["t1", "t2"]).1, rfl,
   (subscribeAll_behavior facadeA ["t1", "t2"]).2.2.2 JSValue.nullValue rfl⟩

/-- C9: `disconnect` is a silent no-op when the connection is already torn
down (whatever the close calls would do); otherwise it awaits the channel
close strictly before the connection close and propagates whichever
teardown error occurs first. -/
theorem disconnect_behavior (res : CloseResults) :
    disconnect false res = Except.ok (false, []) ∧
    (res.channelClose = Except.ok () → res.connectionClose = Except.ok () →
      disconnect true res =
        Except.ok (false, [CloseOp.closeChannel, CloseOp.closeConnection])) ∧
    (∀ e, res.channelClose = Except.error e →
      disconnect true res = Except.error e) ∧
    (∀ e, res.channelClose = Except.ok () →
      res.connectionClose = Except.error e →
      disconnect true res = Except.error e) := by
  refine ⟨rfl, fun h1 h2 => ?_, fun e h1 => ?_, fun e h1 h2 => ?_⟩ <;>
    simp [disconnect, h1]
  · simp [h2]
  · simp [h2]

/-- Witness for C9: with failing channel teardown, disconnect on a torn
down facade still succeeds silently; on a live facade the happy path
closes channel then connection, and the failing path propagates. -/
theorem disconnect_behavior_witness :
    disconnect false resBad = Except.ok (false, []) ∧
    disconnect true resOk =
      Except.ok (false, [CloseOp.closeChannel, CloseOp.closeConnection]) ∧
    disconnect true resBad = Except.error "boom" :=
  ⟨(disconnect_behavior resBad).1,
   (disconnect_behavior resOk).2.1 rfl rfl,
   (disconnect_behavior resBad).2.2.1 "boom" rfl⟩

/-- C10: `configure` hands the metadata-derived `Map` of message bindings
to `subscribeAll`, whose `Array.isArray` guard rejects it, so no topic
binding is ever issued and the call resolves silently for every set of
registered bindings. -/
theorem configure_performs_no_topic_binding (f : Facade)
    (messageBindings : List (String × String)) :
    configureSubscribeOps f messageBindings = [] ∧
    (JSValue.mapValue messageBindings).isArray = false :=
  ⟨rfl, rfl⟩

end Mercury
